import Mathlib

/-!
Shallow embedding of the real-time chat streaming client of this repository
(the useWebSocket hook): connection lifecycle, the message store, the
streaming accumulator, the rate-limit monitor, and the outbound frame path.
Machine integers do not occur; ids and timestamps are modelled with Nat
(Date.now is modelled as a clock field advanced by the facade). The raw
JSON.parse boundary is modelled by Option: a raw frame that fails to parse
is the value none, and the catch branch of the handler maps it to the
unchanged state.
-/

namespace KuberaChat

/-- Role of a chat message, mirroring the role field of ChatMessage. -/
inductive Role
  | user
  | assistant
  deriving DecidableEq, Repr

/-- One entry of the conversation store, mirroring the ChatMessage
interface. The optional isStreaming boolean of the source is modelled as a
Bool, with undefined read as false (the source only ever tests its
truthiness). -/
structure ChatMessage where
  id : String
  role : Role
  content : String
  isStreaming : Bool
  timestamp : Nat
  deriving DecidableEq, Repr

/-- The four usage counters carried by rate_limit_info frames. -/
structure RateFields where
  burst : Nat
  per_chat : Nat
  hourly : Nat
  daily : Nat
  deriving DecidableEq, Repr

/-- The stored rate-limit snapshot: current usage plus limits. -/
structure RateLimitSnapshot where
  current : RateFields
  limits : RateFields
  deriving DecidableEq, Repr

/-- A decoded inbound frame, mirroring the WebSocketMessage interface:
a type discriminator plus the optional fields the handlers consume. -/
structure WSMessage where
  type : String
  content : Option String := none
  status : Option String := none
  current_usage : Option RateFields := none
  limits : Option RateFields := none
  name : Option String := none
  deriving DecidableEq, Repr

/-- Status of one transport session: a WebSocket is created in the
connecting state, becomes open when its onopen fires, and closed when
close is called on it. -/
inductive SessStatus
  | connecting
  | opn
  | closed
  deriving DecidableEq, Repr

/-- An outbound frame emitted on the transport: the message frame sent by
sendMessage, or the keep-alive ping. -/
inductive OutFrame
  | message (chat_id : String) (message : String)
  | ping
  deriving DecidableEq, Repr

/-- The whole observable state of the facade: credential presence, the
mutable session reference wsRef, every session ever created with its
status, the connected and streaming flags, the message store, the running
accumulator buffer (currentMessageRef), the rate-limit snapshot, the list
of outbound frames emitted so far, and the clock used for ids and
timestamps. -/
structure FacadeState where
  hasToken : Bool
  wsRef : Option Nat
  sessions : List (Nat × SessStatus)
  nextSid : Nat
  connected : Bool
  streaming : Bool
  messages : List ChatMessage
  buffer : String
  rateLimits : Option RateLimitSnapshot
  sent : List OutFrame
  now : Nat
  deriving DecidableEq, Repr

/-- Status lookup of a session id in the session list. -/
def statusOf (l : List (Nat × SessStatus)) (sid : Nat) : Option SessStatus :=
  (l.find? (fun p => p.1 == sid)).map Prod.snd

/-- Set the status of one session id, leaving the others alone. -/
def setStatus (l : List (Nat × SessStatus)) (sid : Nat) (st : SessStatus) :
    List (Nat × SessStatus) :=
  l.map (fun p => if p.1 == sid then (p.1, st) else p)

/-- The guard of sendMessage: wsRef.current is non-null and its
readyState is OPEN. -/
def wsRefOpen (s : FacadeState) : Bool :=
  match s.wsRef with
  | some sid => statusOf s.sessions sid == some SessStatus.opn
  | none => false

/-- connect(): if no access token is stored it returns without doing
anything; otherwise it creates a fresh WebSocket (a new session in the
connecting state) and overwrites wsRef with it. The source neither checks
the current connection state nor closes a previously referenced session. -/
def connect (s : FacadeState) : FacadeState :=
  if s.hasToken then
    { s with wsRef := some s.nextSid,
             sessions := s.sessions ++ [(s.nextSid, SessStatus.connecting)],
             nextSid := s.nextSid + 1 }
  else s

/-- The onopen event of the currently referenced session: the session
reaches the OPEN ready state and the handler sets isConnected to true. -/
def opened (s : FacadeState) : FacadeState :=
  match s.wsRef with
  | some sid => { s with sessions := setStatus s.sessions sid SessStatus.opn,
                         connected := true }
  | none => s

/-- The onclose event: the handler sets isConnected to false. -/
def closedEvt (s : FacadeState) : FacadeState :=
  { s with connected := false }

/-- disconnect(): if wsRef holds a session, close it and null the
reference; otherwise do nothing. No other field is touched. -/
def disconnect (s : FacadeState) : FacadeState :=
  match s.wsRef with
  | some sid => { s with wsRef := none,
                         sessions := setStatus s.sessions sid SessStatus.closed }
  | none => s

/-- sendMessage(chatId, message): rejected when wsRef is null or not
OPEN; otherwise it appends the user message and the streaming assistant
placeholder, sets the streaming flag, resets the accumulator buffer, and
emits the outbound message frame. Ids come from Date.now, modelled by the
clock field. -/
def sendMessage (chatId : String) (message : String) (s : FacadeState) :
    FacadeState :=
  if wsRefOpen s then
    { s with
        messages := s.messages ++
          [{ id := toString s.now, role := Role.user, content := message,
             isStreaming := false, timestamp := s.now },
           { id := toString (s.now + 1), role := Role.assistant, content := "",
             isStreaming := true, timestamp := s.now }],
        streaming := true,
        buffer := "",
        sent := s.sent ++ [OutFrame.message chatId message],
        now := s.now + 2 }
  else s

/-- The setMessages callback shape used by the text_chunk and
message_complete handlers: look at the last store entry; when the
predicate holds, replace it by its image under f, else keep the store. -/
def replaceLastIf (p : ChatMessage → Bool) (f : ChatMessage → ChatMessage)
    (l : List ChatMessage) : List ChatMessage :=
  match l.getLast? with
  | some lastMsg => if p lastMsg then l.dropLast ++ [f lastMsg] else l
  | none => l

/-- The rate_limit_info handler body: only when both current_usage and
limits are present is the snapshot replaced (wholesale); otherwise nothing
happens. -/
def updateRateLimits (cu li : Option RateFields) (s : FacadeState) :
    FacadeState :=
  match cu, li with
  | some c, some l => { s with rateLimits := some { current := c, limits := l } }
  | _, _ => s

/-- The switch of ws.onmessage over the type discriminator of a decoded
frame, branch for branch. -/
def handleFrame (m : WSMessage) (s : FacadeState) : FacadeState :=
  if m.type = "connection" then s
  else if m.type = "rate_limit_info" then updateRateLimits m.current_usage m.limits s
  else if m.type = "message_received" then s
  else if m.type = "text_chunk" then
    let buf := s.buffer ++ m.content.getD ""
    { s with buffer := buf,
             messages := replaceLastIf
               (fun l => l.role == Role.assistant && l.isStreaming)
               (fun l => { l with content := buf }) s.messages }
  else if m.type = "tool_executing" then s
  else if m.type = "tool_complete" then s
  else if m.type = "message_complete" then
    { s with streaming := false,
             messages := replaceLastIf (fun l => l.role == Role.assistant)
               (fun l => { l with isStreaming := false }) s.messages,
             buffer := "" }
  else if m.type = "rate_limit_exceeded" then { s with streaming := false }
  else if m.type = "error" then { s with streaming := false }
  else if m.type = "pong" then s
  else s

/-- ws.onmessage on one raw frame: JSON.parse either yields a decoded
frame (some m) which is dispatched, or throws (none) and the catch branch
leaves the state untouched. -/
def handleRaw (raw : Option WSMessage) (s : FacadeState) : FacadeState :=
  match raw with
  | some m => handleFrame m s
  | none => s

/-- One tick of the keep-alive interval: a ping frame is emitted when the
referenced socket is still OPEN. -/
def tick (s : FacadeState) : FacadeState :=
  if wsRefOpen s then { s with sent := s.sent ++ [OutFrame.ping] } else s

/-- The events under which the facade state evolves: the facade calls,
the transport open and close events, delivery of one raw inbound frame,
and one keep-alive tick. -/
inductive Op
  | connect
  | opened
  | closedEvt
  | disconnect
  | send (chatId : String) (message : String)
  | frame (raw : Option WSMessage)
  | tick
  deriving DecidableEq, Repr

/-- Dispatch one event to its handler. -/
def step (op : Op) (s : FacadeState) : FacadeState :=
  match op with
  | Op.connect => connect s
  | Op.opened => opened s
  | Op.closedEvt => closedEvt s
  | Op.disconnect => disconnect s
  | Op.send c t => sendMessage c t s
  | Op.frame raw => handleRaw raw s
  | Op.tick => tick s

/-- Run a sequence of events from a state. -/
def run (ops : List Op) (s : FacadeState) : FacadeState :=
  ops.foldl (fun st op => step op st) s

/-- The initial facade state with a stored credential: no session, empty
store, nothing streaming, no snapshot. -/
def init : FacadeState :=
  { hasToken := true, wsRef := none, sessions := [], nextSid := 0,
    connected := false, streaming := false, messages := [], buffer := "",
    rateLimits := none, sent := [], now := 0 }

/-- Number of store entries whose isStreaming field is true. -/
def streamingCount (l : List ChatMessage) : Nat :=
  (l.filter (fun m => m.isStreaming)).length

/-- Whether the last store entry is an open assistant placeholder, the
test made by the text_chunk handler. -/
def lastOpen (l : List ChatMessage) : Bool :=
  match l.getLast? with
  | some m => m.role == Role.assistant && m.isStreaming
  | none => false

/-- A decoded text_chunk frame carrying one delta. -/
def chunkMsg (d : String) : WSMessage :=
  { type := "text_chunk", content := some d }

/-- A decoded message_complete frame. -/
def completeMsg : WSMessage := { type := "message_complete" }

/-- A decoded error frame. -/
def errorMsg : WSMessage := { type := "error" }

/-- A decoded rate_limit_exceeded frame. -/
def rateLimitExceededMsg : WSMessage := { type := "rate_limit_exceeded" }

/-- Concatenation of a list of deltas in order. -/
def concatDeltas (ds : List String) : String :=
  ds.foldl (fun a d => a ++ d) ""

end KuberaChat

namespace KuberaChat

/-- C7: a raw inbound frame whose payload fails to parse is handled by the
catch branch: handleRaw is total (no exception escapes the decode
boundary, modelled by totality of the handler) and the whole facade state,
in particular the message store, the streaming flag and the rate-limit
snapshot, is unchanged. -/
theorem malformed_frame_no_state_change (s : FacadeState) :
    handleRaw none s = s ∧
    (handleRaw none s).messages = s.messages ∧
    (handleRaw none s).streaming = s.streaming ∧
    (handleRaw none s).rateLimits = s.rateLimits :=
  ⟨rfl, rfl, rfl, rfl⟩

/-- C8: disconnect only closes and clears the transport reference: the
message store, the streaming flag, the rate-limit snapshot, the emitted
frames and the clock are untouched, and the reference is null afterward,
so the streaming flag keeps whatever value it had, including true. -/
theorem disconnect_preserves_chat_state (s : FacadeState) :
    (disconnect s).messages = s.messages ∧
    (disconnect s).streaming = s.streaming ∧
    (disconnect s).rateLimits = s.rateLimits ∧
    (disconnect s).sent = s.sent ∧
    (disconnect s).wsRef = none := by
  unfold disconnect
  cases h : s.wsRef with
  | some sid => exact ⟨rfl, rfl, rfl, rfl, rfl⟩
  | none => exact ⟨rfl, rfl, rfl, rfl, h⟩

/-- C4: two rate_limit_info frames, each carrying both current_usage and
limits, received one after the other: the monitor afterward holds exactly
the snapshot of the second frame, with no field of the first retained. -/
theorem rateLimitInfo_replaces_wholesale (s : FacadeState)
    (m1 m2 : WSMessage) (cu1 li1 cu2 li2 : RateFields)
    (ht1 : m1.type = "rate_limit_info") (ht2 : m2.type = "rate_limit_info")
    (hc1 : m1.current_usage = some cu1) (hl1 : m1.limits = some li1)
    (hc2 : m2.current_usage = some cu2) (hl2 : m2.limits = some li2) :
    (handleFrame m2 (handleFrame m1 s)).rateLimits =
      some { current := cu2, limits := li2 } := by
  obtain ⟨t1, c1, st1, u1, lm1, n1⟩ := m1
  obtain ⟨t2, c2, st2, u2, lm2, n2⟩ := m2
  simp only at ht1 ht2 hc1 hl1 hc2 hl2
  subst ht1 ht2 hc1 hl1 hc2 hl2
  rfl

/-- Witness for rateLimitInfo_replaces_wholesale at concrete frames. -/
theorem rateLimitInfo_replaces_wholesale_witness :
    (handleFrame
        { type := "rate_limit_info", current_usage := some ⟨2, 2, 2, 2⟩,
          limits := some ⟨9, 9, 9, 9⟩ }
        (handleFrame
          { type := "rate_limit_info", current_usage := some ⟨1, 1, 1, 1⟩,
            limits := some ⟨5, 5, 5, 5⟩ } init)).rateLimits =
      some { current := ⟨2, 2, 2, 2⟩, limits := ⟨9, 9, 9, 9⟩ } :=
  rateLimitInfo_replaces_wholesale init _ _ _ _ _ _ rfl rfl rfl rfl rfl rfl

/-- C9: a rate_limit_info frame missing current_usage or missing limits
leaves the whole state, in particular the stored snapshot, unchanged: the
monitor never updates from such a frame and never updates one field
without the other. -/
theorem rateLimitInfo_missing_field_noop (s : FacadeState) (m : WSMessage)
    (ht : m.type = "rate_limit_info")
    (hmiss : m.current_usage = none ∨ m.limits = none) :
    handleFrame m s = s ∧ (handleFrame m s).rateLimits = s.rateLimits := by
  obtain ⟨t, c, st, u, lm, n⟩ := m
  simp only at ht
  subst ht
  have h : handleFrame ⟨"rate_limit_info", c, st, u, lm, n⟩ s = s := by
    rcases hmiss with h1 | h1
    · simp only at h1
      subst h1
      cases lm <;> rfl
    · simp only at h1
      subst h1
      cases u <;> rfl
  exact ⟨h, by rw [h]⟩

/-- Witness for rateLimitInfo_missing_field_noop: a frame carrying only
limits changes nothing. -/
theorem rateLimitInfo_missing_field_noop_witness :
    handleFrame { type := "rate_limit_info", limits := some ⟨5, 5, 5, 5⟩ } init
      = init ∧
    (handleFrame { type := "rate_limit_info", limits := some ⟨5, 5, 5, 5⟩ }
      init).rateLimits = init.rateLimits :=
  rateLimitInfo_missing_field_noop init _ rfl (Or.inl rfl)

end KuberaChat

namespace KuberaChat

/-- Reduction of the text_chunk branch of the frame handler. -/
theorem handleFrame_chunk (d : String) (s : FacadeState) :
    handleFrame (chunkMsg d) s =
      { s with buffer := s.buffer ++ d,
               messages := replaceLastIf
                 (fun l => l.role == Role.assistant && l.isStreaming)
                 (fun l => { l with content := s.buffer ++ d }) s.messages } :=
  rfl

/-- When the last store entry is not an open assistant placeholder, the
store callback of the text_chunk handler keeps the store. -/
theorem replaceLastIf_of_not_lastOpen (f : ChatMessage → ChatMessage)
    (l : List ChatMessage) (h : lastOpen l = false) :
    replaceLastIf (fun m => m.role == Role.assistant && m.isStreaming) f l = l := by
  unfold replaceLastIf
  unfold lastOpen at h
  cases hl : l.getLast? with
  | none => rfl
  | some x =>
    rw [hl] at h
    have h2 : (x.role == Role.assistant && x.isStreaming) = false := h
    simp [h2]

/-- When the last store entry is an open assistant placeholder, the store
callback of the text_chunk handler rewrites exactly that entry. -/
theorem replaceLastIf_of_lastOpen (f : ChatMessage → ChatMessage)
    (l : List ChatMessage) (h : lastOpen l = true) :
    ∃ x, l.getLast? = some x ∧
      replaceLastIf (fun m => m.role == Role.assistant && m.isStreaming) f l
        = l.dropLast ++ [f x] := by
  unfold replaceLastIf
  unfold lastOpen at h
  cases hl : l.getLast? with
  | none => rw [hl] at h; cases h
  | some x =>
    rw [hl] at h
    have h2 : (x.role == Role.assistant && x.isStreaming) = true := h
    exact ⟨x, rfl, by simp [h2]⟩

/-- C10: the text_chunk handler appends the delta to the running buffer
before it looks at the store, so the delta lands in the buffer even when
the last entry is not an open placeholder and the store is left alone; and
whenever a chunk is applied while the last entry is an open placeholder,
that entry receives the whole buffer value, previously ignored deltas
included. -/
theorem chunk_appends_even_when_ignored (s t : FacadeState) (d e : String)
    (hs : lastOpen s.messages = false) (ht : lastOpen t.messages = true) :
    (handleFrame (chunkMsg d) s).messages = s.messages ∧
    (handleFrame (chunkMsg d) s).buffer = s.buffer ++ d ∧
    ((handleFrame (chunkMsg e) t).messages.getLast?).map (fun m => m.content)
      = some (t.buffer ++ e) := by
  refine ⟨?_, ?_, ?_⟩
  · rw [handleFrame_chunk]
    exact replaceLastIf_of_not_lastOpen _ _ hs
  · rw [handleFrame_chunk]
  · rw [handleFrame_chunk]
    obtain ⟨x, hx, hrw⟩ := replaceLastIf_of_lastOpen
      (fun l => { l with content := t.buffer ++ e }) t.messages ht
    simp only [hrw, List.getLast?_concat]
    rfl

/-- Witness for chunk_appends_even_when_ignored: from the empty store the
delta "ig" is buffered though no placeholder exists, and on a store whose
last entry is an open placeholder with buffered text "pre", the chunk
"now" writes "prenow" into that entry. -/
theorem chunk_appends_even_when_ignored_witness :
    lastOpen init.messages = false ∧
    lastOpen ({ init with
        messages := [{ id := "9", role := Role.assistant, content := "",
                       isStreaming := true, timestamp := 0 }],
        buffer := "pre" } : FacadeState).messages = true ∧
    (handleFrame (chunkMsg "ig") init).messages = init.messages ∧
    (handleFrame (chunkMsg "ig") init).buffer = init.buffer ++ "ig" ∧
    ((handleFrame (chunkMsg "now") { init with
        messages := [{ id := "9", role := Role.assistant, content := "",
                       isStreaming := true, timestamp := 0 }],
        buffer := "pre" }).messages.getLast?).map (fun m => m.content)
      = some ("pre" ++ "now") := by
  have h := chunk_appends_even_when_ignored init
    ({ init with
        messages := [{ id := "9", role := Role.assistant, content := "",
                       isStreaming := true, timestamp := 0 }],
        buffer := "pre" }) "ig" "now" (by decide) (by decide)
  exact ⟨by decide, by decide, h.1, h.2.1, h.2.2⟩

/-- C6 counterexample: connect, open, send, one chunk, then an error
frame: the facade streaming flag is forced false, but the placeholder is
not sealed (its isStreaming field stays true) and keeps its content. -/
theorem error_does_not_seal_placeholder :
    ((run [Op.connect, Op.opened, Op.send "c1" "hi",
           Op.frame (some (chunkMsg "par")), Op.frame (some errorMsg)]
        init).messages.getLast?).map (fun m => m.isStreaming) = some true ∧
    (run [Op.connect, Op.opened, Op.send "c1" "hi",
          Op.frame (some (chunkMsg "par")), Op.frame (some errorMsg)]
       init).streaming = false ∧
    ((run [Op.connect, Op.opened, Op.send "c1" "hi",
           Op.frame (some (chunkMsg "par")), Op.frame (some errorMsg)]
        init).messages.getLast?).map (fun m => m.content) = some "par" := by
  decide

/-- C6 amended: an error or rate_limit_exceeded frame only forces the
facade streaming flag false; the message store (the open placeholder with
its accumulated content included), the buffer and the rate-limit snapshot
are untouched, so the placeholder is not sealed by these frames. -/
theorem errorFrames_flip_flag_only (s : FacadeState) (m : WSMessage)
    (h : m.type = "error" ∨ m.type = "rate_limit_exceeded") :
    (handleFrame m s).messages = s.messages ∧
    (handleFrame m s).streaming = false ∧
    (handleFrame m s).buffer = s.buffer ∧
    (handleFrame m s).rateLimits = s.rateLimits := by
  obtain ⟨t, c, st, u, lm, n⟩ := m
  simp only at h
  rcases h with h | h <;> subst h <;> exact ⟨rfl, rfl, rfl, rfl⟩

/-- Witness for errorFrames_flip_flag_only at the error frame and a
concrete mid-turn state. -/
theorem errorFrames_flip_flag_only_witness :
    (handleFrame errorMsg
        (run [Op.connect, Op.opened, Op.send "c1" "hi"] init)).messages
      = (run [Op.connect, Op.opened, Op.send "c1" "hi"] init).messages ∧
    (handleFrame errorMsg
        (run [Op.connect, Op.opened, Op.send "c1" "hi"] init)).streaming
      = false :=
  ⟨(errorFrames_flip_flag_only _ errorMsg (Or.inl rfl)).1,
   (errorFrames_flip_flag_only _ errorMsg (Or.inl rfl)).2.1⟩

/-- C1 counterexample: after connect, open and one accepted send the
streaming flag is true, yet a second sendMessage still appends two more
store entries and emits a second outbound frame. -/
theorem send_while_streaming_appends :
    (run [Op.connect, Op.opened, Op.send "c1" "a"] init).streaming = true ∧
    (run [Op.connect, Op.opened, Op.send "c1" "a"] init).messages.length = 2 ∧
    (sendMessage "c1" "b"
        (run [Op.connect, Op.opened, Op.send "c1" "a"] init)).messages.length
      = 4 ∧
    (run [Op.connect, Op.opened, Op.send "c1" "a"] init).sent.length = 1 ∧
    (sendMessage "c1" "b"
        (run [Op.connect, Op.opened, Op.send "c1" "a"] init)).sent.length
      = 2 := by
  decide

/-- C1 amended: sendMessage leaves the store unchanged and emits no
outbound frame exactly when the referenced socket is not open; the
streaming flag is never consulted, so with an open socket a send during a
turn still appends the pair of messages and emits a frame. -/
theorem sendMessage_rejects_iff_not_open (s : FacadeState) (c t : String) :
    ((sendMessage c t s).messages = s.messages ∧
      (sendMessage c t s).sent = s.sent)
      ↔ wsRefOpen s = false := by
  by_cases h : wsRefOpen s = true
  · simp [sendMessage, h]
  · have hb : wsRefOpen s = false := by
      cases hw : wsRefOpen s
      · rfl
      · exact absurd hw h
    simp [sendMessage, hb]

/-- Witness for sendMessage_rejects_iff_not_open: in the initial state the
socket is not open and a send changes nothing. -/
theorem sendMessage_rejects_iff_not_open_witness :
    (sendMessage "c1" "x" init).messages = init.messages ∧
    (sendMessage "c1" "x" init).sent = init.sent :=
  (sendMessage_rejects_iff_not_open init "c1" "x").mpr (by decide)

/-- C5 counterexample: with a session already open (connected facade),
connect() is not a no-op: it creates a second session and repoints wsRef
at it while the first session is still open, never torn down. -/
theorem connect_while_open_not_noop :
    (run [Op.connect, Op.opened] init).connected = true ∧
    connect (run [Op.connect, Op.opened] init)
      ≠ run [Op.connect, Op.opened] init ∧
    (connect (run [Op.connect, Op.opened] init)).sessions
      = [(0, SessStatus.opn), (1, SessStatus.connecting)] ∧
    statusOf (connect (run [Op.connect, Op.opened] init)).sessions 0
      = some SessStatus.opn := by
  decide

/-- C5 amended: connect() is a no-op only when no credential is stored;
with a credential it always creates a fresh session in the connecting
state and repoints the facade at it, appending to the session list without
modifying (in particular without closing) any existing session. -/
theorem connect_no_guard_on_active_session (s : FacadeState) :
    (s.hasToken = false → connect s = s) ∧
    (s.hasToken = true →
      (connect s).wsRef = some s.nextSid ∧
      (connect s).sessions = s.sessions ++ [(s.nextSid, SessStatus.connecting)]) := by
  constructor
  · intro h
    simp [connect, h]
  · intro h
    simp [connect, h]

/-- Witness for connect_no_guard_on_active_session at both a state with
and a state without a credential. -/
theorem connect_no_guard_on_active_session_witness :
    connect { init with hasToken := false } = { init with hasToken := false } ∧
    (connect init).wsRef = some 0 ∧
    (connect init).sessions = [(0, SessStatus.connecting)] := by
  refine ⟨(connect_no_guard_on_active_session _).1 rfl, ?_, ?_⟩
  · exact ((connect_no_guard_on_active_session init).2 rfl).1
  · have h := ((connect_no_guard_on_active_session init).2 rfl).2
    simpa using h

end KuberaChat

namespace KuberaChat

/-- Reduction of the message_complete branch of the frame handler. -/
theorem handleFrame_complete (s : FacadeState) :
    handleFrame completeMsg s =
      { s with streaming := false,
               messages := replaceLastIf (fun l => l.role == Role.assistant)
                 (fun l => { l with isStreaming := false }) s.messages,
               buffer := "" } :=
  rfl

/-- replaceLastIf on a store whose last entry satisfies the predicate
rewrites exactly that entry. -/
theorem replaceLastIf_concat (p : ChatMessage → Bool)
    (f : ChatMessage → ChatMessage) (B : List ChatMessage) (x : ChatMessage)
    (hp : p x = true) :
    replaceLastIf p f (B ++ [x]) = B ++ [f x] := by
  unfold replaceLastIf
  rw [List.getLast?_concat]
  simp [hp, List.dropLast_concat]

/-- The accumulator fold: from a state whose store ends in the open
placeholder carrying exactly the current buffer, a list of chunk frames
processed in order appends every delta, in order, to both the buffer and
the placeholder content. -/
theorem chunks_fold (B : List ChatMessage) (pid : String) (pts : Nat) :
    ∀ (ds : List String) (s : FacadeState),
      s.messages = B ++ [{ id := pid, role := Role.assistant,
                           content := s.buffer, isStreaming := true,
                           timestamp := pts }] →
      (ds.foldl (fun st d => handleFrame (chunkMsg d) st) s).messages
        = B ++ [{ id := pid, role := Role.assistant,
                  content := ds.foldl (fun a d => a ++ d) s.buffer,
                  isStreaming := true, timestamp := pts }] ∧
      (ds.foldl (fun st d => handleFrame (chunkMsg d) st) s).buffer
        = ds.foldl (fun a d => a ++ d) s.buffer := by
  intro ds
  induction ds with
  | nil => intro s hm; exact ⟨hm, rfl⟩
  | cons d ds ih =>
    intro s hm
    have hmsgs : (handleFrame (chunkMsg d) s).messages
        = B ++ [{ id := pid, role := Role.assistant,
                  content := s.buffer ++ d, isStreaming := true,
                  timestamp := pts }] := by
      rw [handleFrame_chunk]
      show replaceLastIf _ _ s.messages = _
      rw [hm, replaceLastIf_concat _ _ _ _ (by rfl)]
    have hbuf : (handleFrame (chunkMsg d) s).buffer = s.buffer ++ d := by
      rw [handleFrame_chunk]
    have ih2 := ih (handleFrame (chunkMsg d) s) (by rw [hbuf]; exact hmsgs)
    rw [hbuf] at ih2
    refine ⟨?_, ?_⟩
    · have h1 := ih2.1
      simpa using h1
    · have h2 := ih2.2
      simpa using h2

/-- C3: one accepted sendMessage, then the chunk frames for deltas d1..dn
in order, then message_complete: the last store entry is the sealed
assistant message whose content is the concatenation of all the deltas,
independent of the chunk boundaries. -/
theorem streamed_content_concat (s0 : FacadeState) (c t : String)
    (ds : List String) (hopen : wsRefOpen s0 = true) :
    (handleFrame completeMsg
        (ds.foldl (fun st d => handleFrame (chunkMsg d) st)
          (sendMessage c t s0))).messages.getLast?
      = some { id := toString (s0.now + 1), role := Role.assistant,
               content := concatDeltas ds, isStreaming := false,
               timestamp := s0.now } := by
  have hs1m : (sendMessage c t s0).messages
      = (s0.messages ++
          [{ id := toString s0.now, role := Role.user, content := t,
             isStreaming := false, timestamp := s0.now }])
        ++ [{ id := toString (s0.now + 1), role := Role.assistant,
              content := (sendMessage c t s0).buffer, isStreaming := true,
              timestamp := s0.now }] := by
    simp [sendMessage, hopen]
  have hfold := chunks_fold
    (s0.messages ++
      [{ id := toString s0.now, role := Role.user, content := t,
         isStreaming := false, timestamp := s0.now }])
    (toString (s0.now + 1)) s0.now ds (sendMessage c t s0) hs1m
  have hbuf0 : (sendMessage c t s0).buffer = "" := by
    simp [sendMessage, hopen]
  rw [hbuf0] at hfold
  rw [handleFrame_complete]
  show (replaceLastIf _ _
      ((ds.foldl (fun st d => handleFrame (chunkMsg d) st)
        (sendMessage c t s0)).messages)).getLast? = _
  rw [hfold.1, replaceLastIf_concat _ _ _ _ (by rfl), List.getLast?_concat]
  rfl

/-- Witness for streamed_content_concat: the end-to-end scenario of the
spec, chunks "Hel", "lo ", "world" yielding the sealed content
"Hello world". -/
theorem streamed_content_concat_witness :
    wsRefOpen (run [Op.connect, Op.opened] init) = true ∧
    (handleFrame completeMsg
        ((["Hel", "lo ", "world"] : List String).foldl
          (fun st d => handleFrame (chunkMsg d) st)
          (sendMessage "c1" "Hi" (run [Op.connect, Op.opened] init)))).messages.getLast?
      = some { id := "1", role := Role.assistant, content := "Hello world",
               isStreaming := false, timestamp := 0 } := by
  refine ⟨by decide, ?_⟩
  exact (streamed_content_concat (run [Op.connect, Op.opened] init) "c1" "Hi"
    ["Hel", "lo ", "world"] (by decide)).trans (by decide)

end KuberaChat

namespace KuberaChat

/-- The store invariant carried through the event induction: every entry
except possibly the last has isStreaming false. -/
def NoOpenBeforeLast (l : List ChatMessage) : Prop :=
  ∀ m ∈ l.dropLast, m.isStreaming = false

/-- The per-event side condition of the amended at-most-one-streaming
claim: a send event is only fired in states whose store holds no
streaming entry; every other event is unrestricted. -/
def guardCond (op : Op) (s : FacadeState) : Bool :=
  match op with
  | Op.send _ _ => streamingCount s.messages == 0
  | _ => true

/-- Whether every event of the list satisfies guardCond in the state at
which it is delivered, starting from s. -/
def guardedFrom (s : FacadeState) : List Op → Bool
  | [] => true
  | op :: ops => guardCond op s && guardedFrom (step op s) ops

/-- updateRateLimits never touches the message store. -/
theorem updateRateLimits_messages (cu li : Option RateFields)
    (s : FacadeState) : (updateRateLimits cu li s).messages = s.messages := by
  unfold updateRateLimits
  cases cu <;> cases li <;> rfl

/-- replaceLastIf only rewrites the last entry, so it preserves the
invariant that all earlier entries are closed. -/
theorem replaceLastIf_noOpen (p : ChatMessage → Bool)
    (f : ChatMessage → ChatMessage) (l : List ChatMessage)
    (h : NoOpenBeforeLast l) : NoOpenBeforeLast (replaceLastIf p f l) := by
  unfold replaceLastIf
  cases hl : l.getLast? with
  | none => exact h
  | some x =>
    show NoOpenBeforeLast (if p x = true then l.dropLast ++ [f x] else l)
    by_cases hp : p x = true
    · rw [if_pos hp]
      intro m hm
      rw [List.dropLast_concat] at hm
      exact h m hm
    · rw [if_neg hp]
      exact h

/-- Appending a closed user message and one placeholder to a store with
no streaming entry keeps every non-final entry closed. -/
theorem noOpen_append_pair (l : List ChatMessage) (u a : ChatMessage)
    (hcount : streamingCount l = 0) (hu : u.isStreaming = false) :
    NoOpenBeforeLast (l ++ [u, a]) := by
  intro m hm
  have hsh : l ++ [u, a] = (l ++ [u]) ++ [a] := by simp
  rw [hsh, List.dropLast_concat] at hm
  rcases List.mem_append.mp hm with h1 | h1
  · have hnil : l.filter (fun m => m.isStreaming) = [] :=
      List.length_eq_zero.mp hcount
    have hne := List.filter_eq_nil_iff.mp hnil m h1
    cases hb : m.isStreaming
    · rfl
    · exact absurd hb hne
  · have hmu : m = u := by simpa using h1
    rw [hmu]
    exact hu

/-- Every branch of the frame handler either keeps the store or rewrites
it through replaceLastIf. -/
theorem handleFrame_messages_cases (m : WSMessage) (s : FacadeState) :
    (handleFrame m s).messages = s.messages ∨
    ∃ p f, (handleFrame m s).messages = replaceLastIf p f s.messages := by
  unfold handleFrame
  by_cases h1 : m.type = "connection"
  · rw [if_pos h1]; exact Or.inl rfl
  rw [if_neg h1]
  by_cases h2 : m.type = "rate_limit_info"
  · rw [if_pos h2]; exact Or.inl (updateRateLimits_messages _ _ _)
  rw [if_neg h2]
  by_cases h3 : m.type = "message_received"
  · rw [if_pos h3]; exact Or.inl rfl
  rw [if_neg h3]
  by_cases h4 : m.type = "text_chunk"
  · rw [if_pos h4]; exact Or.inr ⟨_, _, rfl⟩
  rw [if_neg h4]
  by_cases h5 : m.type = "tool_executing"
  · rw [if_pos h5]; exact Or.inl rfl
  rw [if_neg h5]
  by_cases h6 : m.type = "tool_complete"
  · rw [if_pos h6]; exact Or.inl rfl
  rw [if_neg h6]
  by_cases h7 : m.type = "message_complete"
  · rw [if_pos h7]; exact Or.inr ⟨_, _, rfl⟩
  rw [if_neg h7]
  by_cases h8 : m.type = "rate_limit_exceeded"
  · rw [if_pos h8]; exact Or.inl rfl
  rw [if_neg h8]
  by_cases h9 : m.type = "error"
  · rw [if_pos h9]; exact Or.inl rfl
  rw [if_neg h9]
  by_cases h10 : m.type = "pong"
  · rw [if_pos h10]; exact Or.inl rfl
  rw [if_neg h10]
  exact Or.inl rfl

/-- One event preserves the invariant, provided a send event only fires
on a store with no streaming entry. -/
theorem step_noOpen (op : Op) (s : FacadeState)
    (h : NoOpenBeforeLast s.messages)
    (hg : ∀ c t, op = Op.send c t → streamingCount s.messages = 0) :
    NoOpenBeforeLast (step op s).messages := by
  cases op with
  | connect =>
    show NoOpenBeforeLast (connect s).messages
    unfold connect
    by_cases ht : s.hasToken = true
    · rw [if_pos ht]; exact h
    · rw [if_neg ht]; exact h
  | opened =>
    show NoOpenBeforeLast (opened s).messages
    unfold opened
    cases hw : s.wsRef
    · exact h
    · exact h
  | closedEvt => exact h
  | disconnect =>
    show NoOpenBeforeLast (disconnect s).messages
    unfold disconnect
    cases hw : s.wsRef
    · exact h
    · exact h
  | send c t =>
    have hc := hg c t rfl
    show NoOpenBeforeLast (sendMessage c t s).messages
    unfold sendMessage
    by_cases hw : wsRefOpen s = true
    · rw [if_pos hw]
      exact noOpen_append_pair s.messages _ _ hc rfl
    · rw [if_neg hw]
      exact h
  | frame raw =>
    cases raw with
    | none => exact h
    | some m =>
      show NoOpenBeforeLast (handleFrame m s).messages
      rcases handleFrame_messages_cases m s with he | ⟨p, f, he⟩
      · rw [he]; exact h
      · rw [he]; exact replaceLastIf_noOpen p f _ h
  | tick =>
    show NoOpenBeforeLast (tick s).messages
    unfold tick
    by_cases hw : wsRefOpen s = true
    · rw [if_pos hw]; exact h
    · rw [if_neg hw]; exact h

/-- The invariant over a guarded event sequence. -/
theorem run_noOpen (ops : List Op) : ∀ (s : FacadeState),
    NoOpenBeforeLast s.messages → guardedFrom s ops = true →
    NoOpenBeforeLast (run ops s).messages := by
  induction ops with
  | nil => intro s h _; exact h
  | cons op ops ih =>
    intro s h hg
    simp only [guardedFrom, Bool.and_eq_true] at hg
    show NoOpenBeforeLast (run ops (step op s)).messages
    refine ih (step op s) (step_noOpen op s h ?_) hg.2
    intro c t hop
    subst hop
    have := hg.1
    simpa [guardCond] using this

/-- Only the last entry, if any, can be streaming when every earlier one
is closed. -/
theorem noOpen_count_le_one (l : List ChatMessage)
    (h : NoOpenBeforeLast l) : streamingCount l ≤ 1 := by
  rcases eq_or_ne l [] with hl | hl
  · subst hl
    decide
  · have hsplit := List.dropLast_append_getLast hl
    conv_lhs => rw [← hsplit]
    unfold streamingCount
    rw [List.filter_append, List.length_append]
    have h0 : (l.dropLast.filter (fun m => m.isStreaming)).length = 0 := by
      have he : l.dropLast.filter (fun m => m.isStreaming) = [] := by
        rw [List.filter_eq_nil_iff]
        intro a ha
        simp [h a ha]
      rw [he]
      rfl
    have h1 : (([l.getLast hl]).filter (fun m => m.isStreaming)).length ≤ 1 := by
      cases hb : (l.getLast hl).isStreaming <;> simp [List.filter_cons, hb]
    omega

/-- A streaming entry is the last entry when every earlier one is
closed. -/
theorem noOpen_streaming_is_last (l : List ChatMessage)
    (h : NoOpenBeforeLast l) :
    ∀ m ∈ l, m.isStreaming = true → l.getLast? = some m := by
  intro m hm hstr
  rcases eq_or_ne l [] with hl | hl
  · subst hl
    cases hm
  · have hsplit := List.dropLast_append_getLast hl
    rw [← hsplit] at hm
    rcases List.mem_append.mp hm with h1 | h1
    · have hf := h m h1
      rw [hf] at hstr
      cases hstr
    · have hm2 : m = l.getLast hl := by simpa using h1
      rw [List.getLast?_eq_getLast l hl, hm2]

/-- C2 amended: after any guarded event sequence from the initial state
(send events fired only when no stored entry is streaming), the store
holds at most one entry with isStreaming true, and such an entry is the
last one. -/
theorem guarded_at_most_one_streaming (ops : List Op)
    (hg : guardedFrom init ops = true) :
    streamingCount (run ops init).messages ≤ 1 ∧
    ∀ m ∈ (run ops init).messages, m.isStreaming = true →
      (run ops init).messages.getLast? = some m := by
  have hinv : NoOpenBeforeLast (run ops init).messages := by
    refine run_noOpen ops init ?_ hg
    intro m hm
    simp [init] at hm
  exact ⟨noOpen_count_le_one _ hinv, noOpen_streaming_is_last _ hinv⟩

/-- Witness for guarded_at_most_one_streaming: a full turn followed by a
second send after completion. -/
theorem guarded_at_most_one_streaming_witness :
    guardedFrom init [Op.connect, Op.opened, Op.send "c1" "Hi",
      Op.frame (some (chunkMsg "He")), Op.frame (some completeMsg),
      Op.send "c1" "more"] = true ∧
    streamingCount (run [Op.connect, Op.opened, Op.send "c1" "Hi",
      Op.frame (some (chunkMsg "He")), Op.frame (some completeMsg),
      Op.send "c1" "more"] init).messages ≤ 1 ∧
    ∀ m ∈ (run [Op.connect, Op.opened, Op.send "c1" "Hi",
      Op.frame (some (chunkMsg "He")), Op.frame (some completeMsg),
      Op.send "c1" "more"] init).messages, m.isStreaming = true →
      (run [Op.connect, Op.opened, Op.send "c1" "Hi",
        Op.frame (some (chunkMsg "He")), Op.frame (some completeMsg),
        Op.send "c1" "more"] init).messages.getLast? = some m := by
  have h := guarded_at_most_one_streaming
    [Op.connect, Op.opened, Op.send "c1" "Hi",
     Op.frame (some (chunkMsg "He")), Op.frame (some completeMsg),
     Op.send "c1" "more"] (by decide)
  exact ⟨by decide, h.1, h.2⟩

/-- C2 counterexample: two send events with an open socket and no
completion in between leave two streaming entries in the store, so the
unguarded invariant fails. -/
theorem double_send_two_streaming :
    streamingCount (run [Op.connect, Op.opened, Op.send "c1" "a",
      Op.send "c1" "b"] init).messages = 2 := by
  decide

end KuberaChat
